import Mathlib

/-!
Verification of the fish-assistant voice pipeline core against its
specification.  The definitions below are a shallow embedding of the
Python sources:

* `Bus.publish`                      (src/assistant/core/bus.py)
* the event dataclasses and `same_trace` (src/assistant/core/contracts.py)
* `ConversationLoop`'s state machine (src/assistant/core/ux/conversation_loop.py)
* `STT._on_recorded`                 (src/assistant/core/stt/stt.py)
* `NLU`, `Router`, `EchoSkill`, `TTS`, `Playback` handlers
* `BillyBass`'s mouth controller     (src/assistant/core/audio/billy_bass.py)

Machine floats are modelled as rationals; uuid4 default correlation ids
appear as explicit `fresh` string parameters; asyncio task scheduling is
modelled as an action trace; cancellation of a task is the truncation of
its main body at a suspension point, followed by its `finally` actions.
-/

namespace FishAssistant

/-! ## Event bus (src/assistant/core/bus.py)

A subscriber is identified by an id and a flag saying whether running it
raises.  `Bus.publish` loops `asyncio.create_task(fn(payload))` over the
subscribers of the topic (scheduling each), then suspends on
`await asyncio.gather(*tasks, return_exceptions=True)` — which resumes
only once every task has finished, returning raised exceptions as
values — then logs each exception, and finally returns.  The trace of
one `publish` call records those steps in order. -/

structure Handler where
  hid : Nat
  raises : Bool
deriving DecidableEq, Repr

/-- Subscription registry: `subscribe` appends, so the registry is the
list of (topic, handler) pairs in registration order. -/
def subscribersOf (bus : List (String × Handler)) (topic : String) : List Handler :=
  (bus.filter (fun s => s.1 = topic)).map (fun s => s.2)

inductive BusAction where
  | scheduled (i : Nat)
  | completed (i : Nat) (ok : Bool)
  | loggedError (i : Nat)
  | publishReturned
deriving DecidableEq, Repr

/-- Everything `publish` does before its return point: schedule every
subscriber, let every task run to completion (`ok := true` unless the
handler raises; `return_exceptions=True` turns a raise into a result
rather than aborting the gather), then log each captured exception. -/
def publishPre (hs : List Handler) : List BusAction :=
  (hs.map (fun h => BusAction.scheduled h.hid)) ++
    ((hs.map (fun h => BusAction.completed h.hid (!h.raises))) ++
      ((hs.filter (fun h => h.raises)).map (fun h => BusAction.loggedError h.hid)))

/-- The trace of one `Bus.publish(topic, payload)` call. -/
def publishTrace (hs : List Handler) : List BusAction :=
  publishPre hs ++ [BusAction.publishReturned]

def publish (bus : List (String × Handler)) (topic : String) : List BusAction :=
  publishTrace (subscribersOf bus topic)

/-! ## Mouth motor controller (src/assistant/core/audio/billy_bass.py) -/

/-- RMS threshold below which motor stops (`BillyBass.NOISE_GATE_THRESHOLD`). -/
def NOISE_GATE_THRESHOLD : ℚ := 500

/-- Scale factor for volume to PWM conversion (`BillyBass.VOLUME_DIVISOR`). -/
def VOLUME_DIVISOR : ℚ := 150

/-- Minimum PWM when audio detected (`BillyBass.MIN_PWM`). -/
def MIN_PWM : ℤ := 5

/-- Maximum PWM (`BillyBass.MAX_PWM`). -/
def MAX_PWM : ℤ := 80

/-- The loudness blend `max(volume, peak * 0.7)` computed in
`BillyBass._move_mouth` from the chunk's RMS and peak amplitude. -/
def effectiveVolume (volume peak : ℚ) : ℚ :=
  max volume (peak * (7 / 10))

/-- The duty cycle `pwm_val` computed by `BillyBass._move_mouth`:
zero below the noise gate, otherwise
`max(MIN_PWM, min(MAX_PWM, int((effective - gate) / divisor)))`.
Python's `int()` truncates toward zero; the argument is nonnegative in
this branch, so it is the floor. -/
def movePwm (volume peak : ℚ) : ℤ :=
  if effectiveVolume volume peak < NOISE_GATE_THRESHOLD then 0
  else max MIN_PWM (min MAX_PWM
    (Int.floor ((effectiveVolume volume peak - NOISE_GATE_THRESHOLD) / VOLUME_DIVISOR)))

/-- Hardware writes issued to the mouth motor: the two direction pins
(`MOUTH_IN1`, `MOUTH_IN2`) and the PWM duty cycle (`MOUTH_PWM_PIN`). -/
inductive HWAction where
  | mouthIn1 (high : Bool)
  | mouthIn2 (high : Bool)
  | mouthDuty (v : ℤ)
deriving DecidableEq, Repr

structure MotorState where
  duty : ℤ
  in1 : Bool
  in2 : Bool
deriving DecidableEq, Repr

def applyAction (s : MotorState) : HWAction → MotorState
  | HWAction.mouthIn1 b => { s with in1 := b }
  | HWAction.mouthIn2 b => { s with in2 := b }
  | HWAction.mouthDuty v => { s with duty := v }

def motorRun (s : MotorState) (acts : List HWAction) : MotorState :=
  acts.foldl applyAction s

/-- Closed/rest position: zero duty cycle, both direction pins low. -/
def restState : MotorState := { duty := 0, in1 := false, in2 := false }

/-- `BillyBass._stop_motor`: brief reverse close pulse (IN1 low, IN2
high, duty 30, 50 ms thread sleep), then duty 0 and both pins low.  The
sequence is synchronous (runs in a thread), so it is never interrupted
by task cancellation. -/
def stopMotorActions : List HWAction :=
  [HWAction.mouthIn1 false, HWAction.mouthIn2 true, HWAction.mouthDuty 30,
   HWAction.mouthDuty 0, HWAction.mouthIn1 false, HWAction.mouthIn2 false]

/-- Writes of one `BillyBass._move_mouth` call, given the previous
`_prev_pwm` and the chunk's (volume, peak): forward drive at `pwm_val`
when positive; a brief reverse close pulse on an open-to-closed
transition; otherwise duty 0 with both pins low. -/
def moveMouthActions (prev : ℤ) (volume peak : ℚ) : List HWAction :=
  let pwm := movePwm volume peak
  if 0 < pwm then
    [HWAction.mouthIn1 true, HWAction.mouthIn2 false, HWAction.mouthDuty pwm]
  else if 0 < prev then
    [HWAction.mouthIn1 false, HWAction.mouthIn2 true, HWAction.mouthDuty 25]
  else
    [HWAction.mouthDuty 0, HWAction.mouthIn1 false, HWAction.mouthIn2 false]

/-- Main body of `BillyBass._process_audio_chunks` over the audio
windows (each window abstracted to its RMS volume and peak), threading
`_prev_pwm` (0 at episode start). -/
def mainActions (prev : ℤ) : List (ℚ × ℚ) → List HWAction
  | [] => []
  | c :: cs => moveMouthActions prev c.1 c.2 ++ mainActions (movePwm c.1 c.2) cs

/-- One run of the `_process_audio_chunks` task.  `cancelAt = some k`
means a `CancelledError` was delivered at a suspension point after `k`
windows had been processed (`k = 0`: during the initial 50 ms delay;
mid-window cancellation either includes or excludes that window's
executor writes, so both are covered by adjacent values of `k`);
`cancelAt = none` is an uncancelled run to end of file.  Every exit
path — cancellation, exception, or normal EOF — runs the `finally:`
block, i.e. `_stop_motor`. -/
def processAudioChunks (chunks : List (ℚ × ℚ)) (cancelAt : Option Nat) : List HWAction :=
  mainActions 0 (chunks.take (cancelAt.getD chunks.length)) ++ stopMotorActions

/-! ## Events (src/assistant/core/contracts.py)

One record holds the union of the dataclass fields the claims touch.
`text` carries `STTTranscript.text`, `TTSRequest.text` and (for
`skill.request`) the forwarded `original_text`; `say` is
`SkillResponse.say`; `state` is `UXState.state`.  Each dataclass fills
`corr_id` from `uuid.uuid4().hex` unless the caller passes one, so
constructors below take the generated value as an explicit argument. -/

/-- Python's `str.strip()`: drop leading and trailing whitespace.
Defined directly on the character list so that it evaluates by kernel
reduction. -/
def pyStrip (s : String) : String :=
  String.mk (((s.data.dropWhile Char.isWhitespace).reverse.dropWhile
    Char.isWhitespace).reverse)

structure Event where
  topic : String
  corr_id : String
  text : String := ""
  wav_path : String := ""
  duration_s : ℚ := 0
  intent : String := ""
  skill : String := ""
  say : Option String := none
  state : String := ""
  ok : Bool := true
deriving DecidableEq, Repr

/-- Copy corr_id so downstream events stay in the same trace
(contracts.same_trace). -/
def same_trace (parent child : Event) : Event :=
  { child with corr_id := parent.corr_id }

/-- `AudioRecorded.__post_init__` raises ValueError on an empty
`wav_path` or a non-positive `duration_s`; both direct construction and
re-parsing a payload dict (`AudioRecorded(**payload)`) run it. -/
def mkAudioRecorded (corr wav_path : String) (duration_s : ℚ) : Except String Event :=
  if wav_path = "" ∨ duration_s ≤ 0 then
    Except.error "AudioRecorded requires non-empty wav_path and duration_s > 0"
  else
    Except.ok { topic := "audio.recorded", corr_id := corr,
                wav_path := wav_path, duration_s := duration_s }

/-- `TTSAudio.__post_init__`: the same validation as `AudioRecorded`. -/
def mkTTSAudio (corr wav_path : String) (duration_s : ℚ) : Except String Event :=
  if wav_path = "" ∨ duration_s ≤ 0 then
    Except.error "TTSAudio requires non-empty wav_path and duration_s > 0"
  else
    Except.ok { topic := "tts.audio", corr_id := corr,
                wav_path := wav_path, duration_s := duration_s }

/-! ## Pipeline handlers

Each handler is the list of events it publishes, as a function of the
parsed parent event and of the results of its external calls
(transcription, classification, synthesis, file checks), with the
uuid4 values drawn during the call passed in as `fresh…` arguments. -/

/-- `STT._on_recorded` (stt/stt.py): re-parse the payload as
`AudioRecorded` (drop on ValueError), drop if the stripped path is
empty or the file is missing, run `adapter.transcribe`; if it RAISES,
log and return without publishing anything; if it returns
empty/whitespace text, publish an empty `stt.transcript`; otherwise
publish the stripped text — in both cases with `same_trace`. -/
def sttOnRecorded (corr wav_path : String) (duration_s : ℚ) (fileExists : Bool)
    (transcribeResult : Except String String) (fresh : String) : List Event :=
  match mkAudioRecorded corr wav_path duration_s with
  | Except.error _ => []
  | Except.ok audioEvent =>
      if pyStrip audioEvent.wav_path = "" then []
      else if fileExists = false then []
      else
        match transcribeResult with
        | Except.error _ => []
        | Except.ok text =>
            if pyStrip text = "" then
              [same_trace audioEvent { topic := "stt.transcript", corr_id := fresh }]
            else
              [same_trace audioEvent
                { topic := "stt.transcript", corr_id := fresh, text := pyStrip text }]

/-- `NLU._on_transcript` (nlu/nlu.py): skip empty text, else publish the
classifier result as `nlu.intent` with `same_trace`. -/
def nluOnTranscript (parent : Event) (intent : String) (original_text : String)
    (fresh : String) : List Event :=
  if pyStrip parent.text = "" then []
  else
    [same_trace parent
      { topic := "nlu.intent", corr_id := fresh, intent := intent, text := original_text }]

/-- `Router._on_nlu_intent` (router.py): resolve the skill (identity
unless overridden in `intent_to_skill`), skip when empty, else forward
as `skill.request` (payload carries `original_text`) with `same_trace`. -/
def routerOnNluIntent (routes : List (String × String)) (parent : Event)
    (fresh : String) : List Event :=
  let skill := (routes.lookup parent.intent).getD parent.intent
  if skill = "" then []
  else
    [same_trace parent
      { topic := "skill.request", corr_id := fresh, skill := skill, text := parent.text }]

/-- `EchoSkill._on_request` (skills/echo.py): only for skill "echo" and
non-empty stripped `original_text`; reply `skill.response` with
`same_trace`. -/
def echoOnRequest (parent : Event) (fresh : String) : List Event :=
  if parent.skill ≠ "echo" then []
  else if pyStrip parent.text = "" then []
  else
    [same_trace parent
      { topic := "skill.response", corr_id := fresh, skill := "echo",
        say := some ("You said: " ++ pyStrip parent.text) }]

/-- `Router._on_skill_response` (router.py): skip when `say` is falsy
(absent or empty), else forward as `tts.request` with `same_trace`. -/
def routerOnSkillResponse (parent : Event) (fresh : String) : List Event :=
  match parent.say with
  | none => []
  | some t => if t = "" then []
      else [same_trace parent { topic := "tts.request", corr_id := fresh, text := t }]

/-- `TTS._on_request` (tts/tts.py): skip empty text; synthesize; build
`TTSAudio` (its ValueError on a bad path/duration propagates out of the
handler, so nothing is published) and publish it with `same_trace`. -/
def ttsOnRequest (parent : Event) (synthPath : String) (audioDuration : ℚ)
    (fresh : String) : List Event :=
  if pyStrip parent.text = "" then []
  else
    match mkTTSAudio fresh synthPath audioDuration with
    | Except.error _ => []
    | Except.ok audio => [same_trace parent audio]

/-- `Playback._on_audio` (audio/playback.py): re-parse the payload as
`TTSAudio` (drop on ValueError), drop on missing path; if reading the
file info raises before the start event, only `playback.end(ok=false)`
is published; otherwise `playback.start` then `playback.end` with
`ok := playOk` — every published event through `same_trace`. -/
def playbackOnAudio (corr wav_path : String) (duration_s : ℚ)
    (fileExists infoOk playOk : Bool) (fresh1 fresh2 : String) : List Event :=
  match mkTTSAudio corr wav_path duration_s with
  | Except.error _ => []
  | Except.ok audio =>
      if audio.wav_path = "" ∨ fileExists = false then []
      else if infoOk = false then
        [same_trace audio
          { topic := "audio.playback.end", corr_id := fresh2,
            wav_path := audio.wav_path, ok := false }]
      else
        [same_trace audio
          { topic := "audio.playback.start", corr_id := fresh1, wav_path := audio.wav_path },
         same_trace audio
          { topic := "audio.playback.end", corr_id := fresh2,
            wav_path := audio.wav_path, ok := playOk }]

/-- `ConversationLoop._on_playback_start` (ux/conversation_loop.py):
parses the payload (`_parent`) but then IGNORES it; when the loop is in
"thinking" or "idle" it publishes `UXState(state="speaking")` — a
freshly constructed event whose corr_id is a new uuid4, NOT copied from
the playback event. -/
def convOnPlaybackStart (_parent : Event) (state : String) (fresh : String) : List Event :=
  if state = "thinking" ∨ state = "idle" then
    [{ topic := "ux.state", corr_id := fresh, state := "speaking" }]
  else []

/-- `BillyBass._on_playback_start` (audio/billy_bass.py): parse
`PlaybackStart` (no validation of `wav_path`), return without doing
anything when the path is empty or the file is missing; otherwise
publish a fresh `UXState(state="speaking")` and start the mouth task
(second component). -/
def billyOnPlaybackStart (parent : Event) (fresh : String) (fileExists : Bool) :
    List Event × Bool :=
  if parent.wav_path = "" ∨ fileExists = false then ([], false)
  else ([{ topic := "ux.state", corr_id := fresh, state := "speaking" }], true)

/-! ## Conversation state machine (src/assistant/core/ux/conversation_loop.py)

The loop's mutable fields are `state` (a string), `speech_frame_count`,
`silence_frame_count` and `recording_buffer`; the buffer is modelled by
the sample counts of its chunks.  One `convStep` is one reaction of the
loop: a `_detect_speech_start` window while idle, reaching the silence
threshold while recording (which runs `_stop_and_process`), a per-state
timeout firing, a playback/transcript handler call, or a loop tick in an
unrecognized state. -/

/-- conversation_loop.py line 27. -/
def SPEECH_FRAMES_TO_START : Nat := 3

/-- conversation_loop.py line 26. -/
def SILENCE_FRAMES_THRESHOLD : Nat := 15

/-- Sample rate, from audio/vad.py (`SR = 16_000`). -/
def SR : Nat := 16000

/-- Longest run of consecutive `true` classifications in a window
(`max_consecutive` in `_detect_speech_start`). -/
def maxConsecutiveTrue (frames : List Bool) : Nat :=
  (frames.foldl
    (fun (p : Nat × Nat) b => if b then (p.1 + 1, max p.2 (p.1 + 1)) else (0, p.2))
    (0, 0)).2

/-- Number of speech-classified frames in the window
(`speech_frames_in_window`). -/
def countSpeech (frames : List Bool) : Nat :=
  frames.countP (fun b => b)

/-- Update of `self.speech_frame_count`: raised to the window's longest
consecutive run when there was any speech, otherwise decayed by one. -/
def updatedSpeechCount (frames : List Bool) (count : Nat) : Nat :=
  if 0 < maxConsecutiveTrue frames then max count (maxConsecutiveTrue frames)
  else if 0 < count then count - 1 else count

/-- Onset threshold: `SPEECH_FRAMES_TO_START` while the window's audio
level is below 30, else `max(1, SPEECH_FRAMES_TO_START - 1)`
(conversation_loop.py line 213). -/
def onsetThreshold (level : ℚ) : Nat :=
  if level < 30 then SPEECH_FRAMES_TO_START else max 1 (SPEECH_FRAMES_TO_START - 1)

/-- Trigger condition of `_detect_speech_start`:
`speech_frames_in_window >= 2 and self.speech_frame_count >= threshold`,
with the count already updated for this window. -/
def speechOnset (frames : List Bool) (level : ℚ) (count : Nat) : Bool :=
  decide (2 ≤ countSpeech frames) &&
    decide (onsetThreshold level ≤ updatedSpeechCount frames count)

structure LoopState where
  state : String
  speechCount : Nat
  silenceCount : Nat
  buffer : List Nat
deriving DecidableEq, Repr

/-- Events the loop publishes on the bus: `UXState` moods and
`AudioRecorded` (abstracted to its sample count). -/
inductive Pub where
  | uxState (mood : String)
  | audioRecorded (samples : Nat)
deriving DecidableEq, Repr

inductive ConvInput where
  | speechWindow (chunks : List Nat) (frames : List Bool) (level : ℚ)
  | endOfSpeech
  | thinkingTimeout
  | speakingTimeout
  | playbackStart
  | playbackEnd (ok : Bool)
  | transcript (text : String)
  | unknownTick
deriving DecidableEq, Repr

def validStates : List String := ["idle", "recording", "thinking", "speaking"]

/-- One reaction of the conversation loop, returning the new loop state
and the list of events published during that reaction, mirroring
`_run_loop`, `_detect_speech_start`, `_stop_and_process`,
`_on_playback_start`, `_on_playback_end` and `_on_transcript`. -/
def convStep (s : LoopState) (i : ConvInput) : LoopState × List Pub :=
  match i with
  | ConvInput.speechWindow chunks frames level =>
      -- _detect_speech_start runs only while state == "idle"; an empty
      -- queue returns before touching any counter.
      if s.state = "idle" then
        if chunks = [] then (s, [])
        else if speechOnset frames level s.speechCount then
          ({ state := "recording", speechCount := 0, silenceCount := 0,
             buffer := chunks }, [Pub.uxState "listening"])
        else ({ s with speechCount := updatedSpeechCount frames s.speechCount }, [])
      else (s, [])
  | ConvInput.endOfSpeech =>
      -- silence_frame_count reached SILENCE_FRAMES_THRESHOLD while
      -- recording: _stop_and_process runs on the accumulated buffer.
      if s.state = "recording" then
        if s.buffer = [] then
          ({ s with state := "idle" }, [Pub.uxState "idle"])
        else if ((s.buffer.sum : ℚ) / (SR : ℚ)) < 1 / 2 then
          ({ s with state := "idle", buffer := [], silenceCount := 0 },
           [Pub.uxState "idle"])
        else
          ({ s with state := "thinking", buffer := [], silenceCount := 0 },
           [Pub.audioRecorded s.buffer.sum, Pub.uxState "thinking"])
      else (s, [])
  | ConvInput.thinkingTimeout =>
      -- 30 s in "thinking": log a warning and reset the state; NO
      -- ux.state event is published on this path.
      if s.state = "thinking" then ({ s with state := "idle" }, []) else (s, [])
  | ConvInput.speakingTimeout =>
      -- 60 s in "speaking": reset and publish UXState("idle").
      if s.state = "speaking" then
        ({ s with state := "idle" }, [Pub.uxState "idle"])
      else (s, [])
  | ConvInput.playbackStart =>
      if s.state = "thinking" ∨ s.state = "idle" then
        ({ s with state := "speaking" }, [Pub.uxState "speaking"])
      else (s, [])
  | ConvInput.playbackEnd ok =>
      if ok = true ∧ (s.state = "thinking" ∨ s.state = "speaking") then
        ({ s with state := "idle" }, [Pub.uxState "idle"])
      else (s, [])
  | ConvInput.transcript text =>
      if pyStrip text = "" then
        if s.state = "thinking" then
          ({ s with state := "idle" }, [Pub.uxState "idle"])
        else (s, [])
      else (s, [])
  | ConvInput.unknownTick =>
      -- Defensive branch of _run_loop: an unrecognized state value is
      -- reset to "idle" without publishing anything.
      if s.state ∈ validStates then (s, []) else ({ s with state := "idle" }, [])

/-- The ux.state moods among a reaction's published events. -/
def moodPubs (pubs : List Pub) : List String :=
  pubs.filterMap (fun p => match p with
    | Pub.uxState m => some m
    | _ => none)

/-- Mood string the loop publishes when entering a state: entering
"recording" publishes "listening" (conversation_loop.py line 222), every
other entered state publishes its own name. -/
def moodOf (st : String) : String :=
  if st = "recording" then "listening" else st

/-! ## Theorems -/

/-- C2 (counterexample): the claim says `publish` returns as soon as all
handlers have been scheduled, without waiting for any handler to
complete.  In the code `publish` suspends on `asyncio.gather` until
every handler task has finished: for a topic with a single handler the
trace is schedule, complete, THEN return — the handler's completion
strictly precedes the return point, so publish did wait for it. -/
theorem publish_completion_wait_counterexample :
    publish [("demo", ⟨0, false⟩)] "demo"
      = [BusAction.scheduled 0, BusAction.completed 0 true, BusAction.publishReturned] ∧
    List.indexOf (BusAction.completed 0 true) (publish [("demo", ⟨0, false⟩)] "demo") <
      List.indexOf BusAction.publishReturned (publish [("demo", ⟨0, false⟩)] "demo") := by
  decide

/-- C2 (amended): `Bus.publish` schedules every currently registered
handler of the topic concurrently, then waits (via
`asyncio.gather(..., return_exceptions=True)`) for all of them to
complete, logging raised exceptions, and returns only afterwards: the
trace is `publishPre` followed by the return action, and every
subscriber's completion lies in the part before the return. -/
theorem publish_returns_after_completion :
    ∀ (bus : List (String × Handler)) (topic : String) (h : Handler),
      h ∈ subscribersOf bus topic →
      publish bus topic
        = publishPre (subscribersOf bus topic) ++ [BusAction.publishReturned] ∧
      BusAction.completed h.hid (!h.raises) ∈ publishPre (subscribersOf bus topic) := by
  intro bus topic h hmem
  refine ⟨rfl, ?_⟩
  unfold publishPre
  exact List.mem_append_right _
    (List.mem_append_left _ (List.mem_map_of_mem _ hmem))

theorem publish_returns_after_completion_witness :
    BusAction.completed 1 true ∈
      publishPre (subscribersOf [("t", ⟨0, true⟩), ("t", ⟨1, false⟩)] "t") :=
  (publish_returns_after_completion [("t", ⟨0, true⟩), ("t", ⟨1, false⟩)] "t"
    ⟨1, false⟩ (by decide)).2

/-- C3: a handler that raises is isolated.  Because `publish` wraps every
subscriber in its own task and gathers with `return_exceptions=True`,
every subscriber of the topic runs to completion in the publish trace
regardless of any other handler raising — the quantification ranges over
buses containing raising handlers, and over every topic, so handlers on
the same topic and on other topics are both covered — and a raising
handler's failure is logged. -/
theorem handler_isolation :
    ∀ (bus : List (String × Handler)) (topic : String) (h : Handler),
      h ∈ subscribersOf bus topic →
      BusAction.completed h.hid (!h.raises) ∈ publish bus topic ∧
      (h.raises = true → BusAction.loggedError h.hid ∈ publish bus topic) := by
  intro bus topic h hmem
  constructor
  · unfold publish publishTrace publishPre
    exact List.mem_append_left _
      (List.mem_append_right _
        (List.mem_append_left _ (List.mem_map_of_mem _ hmem)))
  · intro hr
    unfold publish publishTrace publishPre
    refine List.mem_append_left _
      (List.mem_append_right _ (List.mem_append_right _ ?_))
    exact List.mem_map_of_mem _ (List.mem_filter.mpr ⟨hmem, hr⟩)

theorem handler_isolation_witness :
    BusAction.completed 1 true ∈
      publish [("t", ⟨0, true⟩), ("t", ⟨1, false⟩), ("t", ⟨2, false⟩),
               ("u", ⟨3, false⟩), ("u", ⟨4, false⟩), ("t", ⟨5, false⟩)] "t" ∧
    BusAction.loggedError 0 ∈
      publish [("t", ⟨0, true⟩), ("t", ⟨1, false⟩), ("t", ⟨2, false⟩),
               ("u", ⟨3, false⟩), ("u", ⟨4, false⟩), ("t", ⟨5, false⟩)] "t" ∧
    BusAction.completed 3 true ∈
      publish [("t", ⟨0, true⟩), ("t", ⟨1, false⟩), ("t", ⟨2, false⟩),
               ("u", ⟨3, false⟩), ("u", ⟨4, false⟩), ("t", ⟨5, false⟩)] "u" :=
  ⟨(handler_isolation _ "t" ⟨1, false⟩ (by decide)).1,
   (handler_isolation _ "t" ⟨0, true⟩ (by decide)).2 rfl,
   (handler_isolation _ "u" ⟨3, false⟩ (by decide)).1⟩

/-- C8: cancelling the mouth-sync audio-chunk-processing task at any of
its suspension points (`cancelAt = some k`; `k = 0` is the initial
delay, larger `k` are window boundaries, and mid-window cancellations
are covered by the adjacent boundaries), as well as an uncancelled run,
always appends the `_stop_motor` sequence via the `finally:` block, and
replaying the whole trace from any motor state leaves the actuator at
the closed/rest position with zero duty cycle. -/
theorem mouth_cancel_safe :
    ∀ (chunks : List (ℚ × ℚ)) (cancelAt : Option Nat) (s0 : MotorState),
      motorRun s0 (processAudioChunks chunks cancelAt) = restState ∧
      ∃ pre, processAudioChunks chunks cancelAt = pre ++ stopMotorActions := by
  intro chunks cancelAt s0
  constructor
  · unfold processAudioChunks motorRun
    rw [List.foldl_append]
    rfl
  · exact ⟨_, rfl⟩

/-- C9: the duty cycle `pwm_val` computed by `BillyBass._move_mouth`
for a window is 0 when the effective loudness (RMS blended with 0.7 of
the peak) is below the noise-gate threshold, and otherwise lies within
the configured `[MIN_PWM, MAX_PWM]` range. -/
theorem duty_cycle_gated_and_clamped :
    ∀ volume peak : ℚ,
      (effectiveVolume volume peak < NOISE_GATE_THRESHOLD →
        movePwm volume peak = 0) ∧
      (NOISE_GATE_THRESHOLD ≤ effectiveVolume volume peak →
        MIN_PWM ≤ movePwm volume peak ∧ movePwm volume peak ≤ MAX_PWM) := by
  intro v p
  constructor
  · intro hlt
    simp [movePwm, hlt]
  · intro hge
    have hnot : ¬ effectiveVolume v p < NOISE_GATE_THRESHOLD := not_lt.mpr hge
    simp only [movePwm, if_neg hnot]
    refine ⟨le_max_left _ _, max_le ?_ (min_le_left _ _)⟩
    norm_num [MIN_PWM, MAX_PWM]

theorem duty_cycle_gated_and_clamped_witness :
    movePwm 100 0 = 0 ∧
    (MIN_PWM ≤ movePwm 800 0 ∧ movePwm 800 0 ≤ MAX_PWM) :=
  ⟨(duty_cycle_gated_and_clamped 100 0).1
      (by norm_num [effectiveVolume, NOISE_GATE_THRESHOLD, max_def]),
   (duty_cycle_gated_and_clamped 800 0).2
      (by norm_num [effectiveVolume, NOISE_GATE_THRESHOLD, max_def])⟩

/-- C4 (counterexample): the thinking-state ~30 s timeout
(conversation_loop.py lines 117-120) forces a transition into "idle"
but publishes NOTHING — no `MoodChanged`/`ux.state` event carries the
new state, contrary to the claim, which explicitly includes the
timeout-forced transitions. -/
theorem thinking_timeout_no_mood_counterexample :
    (convStep ⟨"thinking", 0, 0, []⟩ ConvInput.thinkingTimeout).1.state = "idle" ∧
    (convStep ⟨"thinking", 0, 0, []⟩ ConvInput.thinkingTimeout).2 = [] := by
  decide

/-- C4 (amended): every state-changing reaction of the conversation
loop from a recognized state publishes exactly one ux.state event
carrying the entered state — except the thinking-timeout reset (which
publishes nothing; the defensive unknown-state reset also publishes
nothing and is excluded by requiring a recognized source state), and
with the proviso that entering "recording" publishes the mood
"listening".  The speaking timeout does publish "idle". -/
theorem mood_published_on_transition :
    ∀ (s : LoopState) (i : ConvInput),
      s.state ∈ validStates →
      i ≠ ConvInput.thinkingTimeout →
      (convStep s i).1.state ≠ s.state →
      moodPubs (convStep s i).2 = [moodOf (convStep s i).1.state] := by
  intro s i hvalid hne hchange
  cases i <;>
    simp only [convStep] at hchange ⊢ <;>
    split_ifs at hchange ⊢ <;>
    first
      | exact absurd rfl hne
      | exact absurd rfl hchange
      | exact absurd hvalid (by assumption)
      | rfl

theorem mood_published_on_transition_witness :
    moodPubs (convStep ⟨"speaking", 0, 0, []⟩ ConvInput.speakingTimeout).2
      = [moodOf (convStep ⟨"speaking", 0, 0, []⟩ ConvInput.speakingTimeout).1.state] :=
  mood_published_on_transition ⟨"speaking", 0, 0, []⟩ ConvInput.speakingTimeout
    (by decide) (by decide) (by decide)

/-- C5 (counterexample): with the window's audio level at 30 (code path
`threshold = max(1, SPEECH_FRAMES_TO_START - 1)`,
conversation_loop.py line 213), a window of N-1 = 2 consecutive
speech-classified frames followed by one silence-classified frame DOES
trigger speech onset starting from a fresh count, contrary to the
claim that N-1 speech frames followed by silence never trigger. -/
theorem onset_high_level_counterexample :
    List.replicate (SPEECH_FRAMES_TO_START - 1) true ++ [false]
      = [true, true, false] ∧
    speechOnset (List.replicate (SPEECH_FRAMES_TO_START - 1) true ++ [false]) 30 0
      = true := by
  constructor
  · decide
  · have hth : onsetThreshold 30 = 2 := by
      unfold onsetThreshold
      rw [if_neg (lt_irrefl (30 : ℚ))]
      decide
    unfold speechOnset
    rw [hth]
    decide

/-- C5 (amended): with the onset threshold N = SPEECH_FRAMES_TO_START
and a window whose audio level is below the adaptive cutoff 30, N-1
consecutive speech-classified frames followed by one silence frame do
not trigger onset from a fresh count, while N consecutive
speech-classified frames do; at audio level ≥ 30 the code lowers the
required count to max(1, N-1), so N-1 frames suffice there. -/
theorem onset_threshold_amended :
    ∀ level : ℚ, level < 30 →
      speechOnset (List.replicate (SPEECH_FRAMES_TO_START - 1) true ++ [false])
        level 0 = false ∧
      speechOnset (List.replicate SPEECH_FRAMES_TO_START true) level 0 = true := by
  intro level hl
  have hth : onsetThreshold level = SPEECH_FRAMES_TO_START := by
    unfold onsetThreshold
    rw [if_pos hl]
  constructor <;> (unfold speechOnset; rw [hth]; decide)

theorem onset_threshold_amended_witness :
    speechOnset (List.replicate (SPEECH_FRAMES_TO_START - 1) true ++ [false])
      0 0 = false ∧
    speechOnset (List.replicate SPEECH_FRAMES_TO_START true) 0 0 = true :=
  onset_threshold_amended 0 (by norm_num)

/-- C6: a recording episode whose accumulated duration at end-of-speech
is below the 0.5 s minimum (`MIN_RECORDING_DURATION` in
`_stop_and_process`; this includes an empty buffer) publishes no
`audio.recorded` event — the reaction publishes exactly the idle
ux.state event — discards the recording buffer, and returns the state
machine to "idle". -/
theorem short_recording_rejected :
    ∀ s : LoopState, s.state = "recording" →
      ((s.buffer.sum : ℚ) / (SR : ℚ)) < 1 / 2 →
      (convStep s ConvInput.endOfSpeech).1.state = "idle" ∧
      (convStep s ConvInput.endOfSpeech).1.buffer = [] ∧
      (convStep s ConvInput.endOfSpeech).2 = [Pub.uxState "idle"] := by
  intro s hrec hshort
  unfold convStep
  rw [if_pos hrec]
  by_cases hb : s.buffer = []
  · rw [if_pos hb]
    exact ⟨rfl, hb, rfl⟩
  · rw [if_neg hb, if_pos hshort]
    exact ⟨rfl, rfl, rfl⟩

theorem short_recording_rejected_witness :
    (convStep ⟨"recording", 0, 3, [1024, 1024]⟩ ConvInput.endOfSpeech).1.state = "idle" ∧
    (convStep ⟨"recording", 0, 3, [1024, 1024]⟩ ConvInput.endOfSpeech).1.buffer = [] ∧
    (convStep ⟨"recording", 0, 3, [1024, 1024]⟩ ConvInput.endOfSpeech).2
      = [Pub.uxState "idle"] :=
  short_recording_rejected ⟨"recording", 0, 3, [1024, 1024]⟩ rfl
    (by norm_num [SR, List.sum_cons, List.sum_nil])

/-- C7 (counterexample): when `adapter.transcribe` raises, `STT._on_recorded`
logs the exception and returns — NO `stt.transcript` event (empty or
otherwise) is published for the recorded audio, contrary to the claim
that a failure is turned into an empty transcript event. -/
theorem stt_failure_no_event_counterexample :
    sttOnRecorded "turn-1" "/tmp/a.wav" 1 true (Except.error "model error") "fresh-1"
      = [] := by
  decide

/-- C7 (amended): when `transcribe` RAISES, the STT component publishes
nothing (recovery is left to the conversation loop's thinking timeout);
it is a transcription that SUCCEEDS with empty/whitespace text that is
published as an empty `stt.transcript` (carrying the audio event's
corr_id), and on receiving an empty transcript the conversation loop in
the "thinking" state resets to "idle" (publishing the idle mood). -/
theorem stt_failure_amended :
    ∀ (corr wav err fresh : String) (dur : ℚ) (fe : Bool) (ls : LoopState),
      sttOnRecorded corr wav dur fe (Except.error err) fresh = [] ∧
      (pyStrip wav ≠ "" → ¬(wav = "" ∨ dur ≤ 0) →
        sttOnRecorded corr wav dur true (Except.ok "") fresh
          = [{ topic := "stt.transcript", corr_id := corr }]) ∧
      (ls.state = "thinking" →
        convStep ls (ConvInput.transcript "")
          = ({ ls with state := "idle" }, [Pub.uxState "idle"])) := by
  intro corr wav err fresh dur fe ls
  refine ⟨?_, ?_, ?_⟩
  · unfold sttOnRecorded mkAudioRecorded
    split_ifs <;> simp
  · intro hw hv
    simp only [sttOnRecorded, mkAudioRecorded, if_neg hv]
    rw [if_neg hw]
    rfl
  · intro hst
    simp only [convStep]
    rw [if_pos (show pyStrip "" = "" from rfl), if_pos hst]

theorem stt_failure_amended_witness :
    sttOnRecorded "c" "a.wav" 1 true (Except.error "boom") "f" = [] ∧
    sttOnRecorded "c" "a.wav" 1 true (Except.ok "") "f"
      = [{ topic := "stt.transcript", corr_id := "c" }] ∧
    convStep ⟨"thinking", 0, 0, []⟩ (ConvInput.transcript "")
      = (⟨"idle", 0, 0, []⟩, [Pub.uxState "idle"]) :=
  ⟨(stt_failure_amended "c" "a.wav" "boom" "f" 1 true ⟨"thinking", 0, 0, []⟩).1,
   (stt_failure_amended "c" "a.wav" "boom" "f" 1 true ⟨"thinking", 0, 0, []⟩).2.1
     (by decide) (by decide),
   (stt_failure_amended "c" "a.wav" "boom" "f" 1 true ⟨"thinking", 0, 0, []⟩).2.2 rfl⟩

/-- C1 (counterexample): `ConversationLoop._on_playback_start` reacts to
an `audio.playback.start` event carrying corr_id "turn-0001" by
publishing a `ux.state` event constructed as `UXState(state="speaking")`
with a freshly generated uuid ("f81d4fae" in this execution) and no
`same_trace` call: the published downstream event does NOT carry its
causal predecessor's correlation id, refuting the claim for the
`ux.state` leg of the chain. -/
theorem ux_state_fresh_corr_counterexample :
    convOnPlaybackStart
      { topic := "audio.playback.start", corr_id := "turn-0001", wav_path := "a.wav" }
      "thinking" "f81d4fae"
      = [{ topic := "ux.state", corr_id := "f81d4fae", state := "speaking" }] ∧
    ("f81d4fae" : String) ≠ "turn-0001" := by
  decide

/-- C1 (amended): every event published on the main causal chain
(audio.recorded → stt.transcript → nlu.intent → skill.request →
skill.response → tts.request → tts.audio → audio.playback.start/end)
carries its causal predecessor's corr_id unchanged, because each of
those handlers routes its output through `same_trace`; the `ux.state`
events, by contrast, are constructed with fresh correlation ids (see
the counterexample). -/
theorem corr_chain_amended :
    ∀ (corr wav fresh f1 f2 synthPath intent orig : String) (dur : ℚ)
      (fe io pk : Bool) (tr : Except String String) (parent : Event)
      (routes : List (String × String)),
      (∀ e ∈ sttOnRecorded corr wav dur fe tr fresh, e.corr_id = corr) ∧
      (∀ e ∈ nluOnTranscript parent intent orig fresh, e.corr_id = parent.corr_id) ∧
      (∀ e ∈ routerOnNluIntent routes parent fresh, e.corr_id = parent.corr_id) ∧
      (∀ e ∈ echoOnRequest parent fresh, e.corr_id = parent.corr_id) ∧
      (∀ e ∈ routerOnSkillResponse parent fresh, e.corr_id = parent.corr_id) ∧
      (∀ e ∈ ttsOnRequest parent synthPath dur fresh, e.corr_id = parent.corr_id) ∧
      (∀ e ∈ playbackOnAudio corr wav dur fe io pk f1 f2, e.corr_id = corr) := by
  intro corr wav fresh f1 f2 synthPath intent orig dur fe io pk tr parent routes
  refine ⟨?_, ?_, ?_, ?_, ?_, ?_, ?_⟩
  · intro e he
    simp only [sttOnRecorded, mkAudioRecorded] at he
    repeat' split at he
    all_goals try split_ifs at *
    all_goals try simp_all [same_trace]
    all_goals try (rcases he with rfl | rfl)
    all_goals subst_vars
    all_goals simp_all [same_trace]
  · intro e he
    simp only [nluOnTranscript] at he
    repeat' split at he
    all_goals simp_all [same_trace]
  · intro e he
    simp only [routerOnNluIntent] at he
    repeat' split at he
    all_goals simp_all [same_trace]
  · intro e he
    simp only [echoOnRequest] at he
    repeat' split at he
    all_goals simp_all [same_trace]
  · intro e he
    simp only [routerOnSkillResponse] at he
    repeat' split at he
    all_goals simp_all [same_trace]
  · intro e he
    simp only [ttsOnRequest, mkTTSAudio] at he
    repeat' split at he
    all_goals try split_ifs at *
    all_goals simp_all [same_trace]
  · intro e he
    simp only [playbackOnAudio, mkTTSAudio] at he
    repeat' split at he
    all_goals try split_ifs at *
    all_goals try simp_all [same_trace]
    all_goals try (rcases he with rfl | rfl)
    all_goals subst_vars
    all_goals simp_all [same_trace]

theorem corr_chain_amended_witness :
    ({ topic := "stt.transcript", corr_id := "c0", text := "hello" } : Event).corr_id
      = "c0" ∧
    ({ topic := "audio.playback.end", corr_id := "c0", wav_path := "b.wav" } : Event).corr_id
      = "c0" :=
  ⟨(corr_chain_amended "c0" "a.wav" "f0" "f1" "f2" "b.wav" "time" "hello" 1 true true
      true (Except.ok "hello") { topic := "x", corr_id := "p" } []).1
      { topic := "stt.transcript", corr_id := "c0", text := "hello" } (by decide),
   (corr_chain_amended "c0" "b.wav" "f0" "f1" "f2" "b.wav" "time" "hello" 1 true true
      true (Except.ok "hello") { topic := "x", corr_id := "p" } []).2.2.2.2.2.2
      { topic := "audio.playback.end", corr_id := "c0", wav_path := "b.wav" } (by decide)⟩

/-- C10: constructing (or re-parsing) an `AudioRecorded` or `TTSAudio`
event raises ValueError exactly when `wav_path` is empty or
`duration_s` is non-positive, and with such a payload the subscribers
that parse these events publish/process nothing: `STT._on_recorded`
drops the `audio.recorded` event, `Playback._on_audio` drops the
`tts.audio` event, and the mouth controller's
`BillyBass._on_playback_start` (whose `PlaybackStart` payload has no
duration field) returns before publishing or starting its task when the
path is empty. -/
theorem payload_validation :
    ∀ (corr wav fresh f1 f2 : String) (dur : ℚ) (fe io pk : Bool)
      (tr : Except String String) (parent : Event),
      (wav = "" ∨ dur ≤ 0 →
        mkAudioRecorded corr wav dur
          = Except.error "AudioRecorded requires non-empty wav_path and duration_s > 0" ∧
        mkTTSAudio corr wav dur
          = Except.error "TTSAudio requires non-empty wav_path and duration_s > 0") ∧
      (¬(wav = "" ∨ dur ≤ 0) →
        mkAudioRecorded corr wav dur
          = Except.ok { topic := "audio.recorded", corr_id := corr,
                        wav_path := wav, duration_s := dur } ∧
        mkTTSAudio corr wav dur
          = Except.ok { topic := "tts.audio", corr_id := corr,
                        wav_path := wav, duration_s := dur }) ∧
      (wav = "" ∨ dur ≤ 0 → sttOnRecorded corr wav dur fe tr fresh = []) ∧
      (wav = "" ∨ dur ≤ 0 → playbackOnAudio corr wav dur fe io pk f1 f2 = []) ∧
      (parent.wav_path = "" → billyOnPlaybackStart parent fresh fe = ([], false)) := by
  intro corr wav fresh f1 f2 dur fe io pk tr parent
  refine ⟨?_, ?_, ?_, ?_, ?_⟩
  · intro h
    constructor
    · unfold mkAudioRecorded
      rw [if_pos h]
    · unfold mkTTSAudio
      rw [if_pos h]
  · intro h
    constructor
    · unfold mkAudioRecorded
      rw [if_neg h]
    · unfold mkTTSAudio
      rw [if_neg h]
  · intro h
    simp only [sttOnRecorded, mkAudioRecorded, if_pos h]
  · intro h
    simp only [playbackOnAudio, mkTTSAudio, if_pos h]
  · intro h
    unfold billyOnPlaybackStart
    rw [if_pos (Or.inl h)]

theorem payload_validation_witness :
    mkAudioRecorded "c" "" 1
      = Except.error "AudioRecorded requires non-empty wav_path and duration_s > 0" ∧
    mkTTSAudio "c" "x.wav" 0
      = Except.error "TTSAudio requires non-empty wav_path and duration_s > 0" ∧
    sttOnRecorded "c" "" 1 true (Except.ok "hi") "f" = [] ∧
    playbackOnAudio "c" "x.wav" 0 true true true "f1" "f2" = [] ∧
    billyOnPlaybackStart { topic := "audio.playback.start", corr_id := "c" } "f" true
      = ([], false) :=
  ⟨((payload_validation "c" "" "f" "f1" "f2" 1 true true true (Except.ok "hi")
      { topic := "x", corr_id := "p" }).1 (Or.inl rfl)).1,
   ((payload_validation "c" "x.wav" "f" "f1" "f2" 0 true true true (Except.ok "hi")
      { topic := "x", corr_id := "p" }).1 (Or.inr le_rfl)).2,
   (payload_validation "c" "" "f" "f1" "f2" 1 true true true (Except.ok "hi")
      { topic := "x", corr_id := "p" }).2.2.1 (Or.inl rfl),
   (payload_validation "c" "x.wav" "f" "f1" "f2" 0 true true true (Except.ok "hi")
      { topic := "x", corr_id := "p" }).2.2.2.1 (Or.inr le_rfl),
   (payload_validation "c" "x.wav" "f" "f1" "f2" 0 true true true (Except.ok "hi")
      { topic := "audio.playback.start", corr_id := "c" }).2.2.2.2 rfl⟩

end FishAssistant
